import Mathlib

/-!
Verification of the crossdock-simulation repository against its specification.

Shallow embedding of the Python modules models/item.py, models/row.py,
models/truck.py and models/scanner.py.  Machine randomness (random.random,
random.gauss, random.choice) is modelled by oracle parameters: every random
draw a function makes is an explicit rational input.  Wall-clock timestamps
(datetime.now) carry no information used by any computation and are omitted
from the log records.
-/

namespace Crossdock

/-! ## Items (models/item.py) -/

/-- The Python class of an item: ItemBase, or one of its subclasses Pallet and
Car.  Row validity tests class membership via isinstance, so the class is part
of the item's observable state. -/
inductive ItemClass where
  | base
  | pallet
  | car
deriving DecidableEq, Repr

/-- An item record as built by ItemBase.__init__.  The two quality booleans and
the destination are drawn from the global random source at construction time;
they enter the model as explicit parameters of the constructor functions. -/
structure Item where
  id : String
  type : String
  cls : ItemClass
  barcode_valid : Bool
  label_damaged : Bool
  destination : String
deriving DecidableEq, Repr

/-- ItemBase.__init__: id is the type joined to the caller suffix; the random
draws for barcode_valid, label_damaged and destination are parameters. -/
def ItemBase.make (id_str : String) (item_type : String)
    (bv ld : Bool) (dest : String) : Item :=
  { id := item_type ++ "-" ++ id_str
    type := item_type
    cls := ItemClass.base
    barcode_valid := bv
    label_damaged := ld
    destination := dest }

/-- Pallet.__init__ delegates to ItemBase.__init__ with item_type "PALLET". -/
def Pallet.make (id_str : String) (bv ld : Bool) (dest : String) : Item :=
  { ItemBase.make id_str "PALLET" bv ld dest with cls := ItemClass.pallet }

/-- Car.__init__ delegates to ItemBase.__init__ with item_type "CAR". -/
def Car.make (id_str : String) (bv ld : Bool) (dest : String) : Item :=
  { ItemBase.make id_str "CAR" bv ld dest with cls := ItemClass.car }

/-! ## Rows (models/row.py) -/

/-- A row of items.  The field strap_needed is set to the constant 1 by
Row.__init__ and never recomputed. -/
structure Row where
  row_id : Int
  items : List Item
  strap_needed : Nat
deriving DecidableEq, Repr

/-- Row.is_valid: two items that are all Pallet instances, or three items that
are all Car instances. -/
def Row.is_valid (r : Row) : Bool :=
  if r.items.length = 2 ∧ ∀ i ∈ r.items, i.cls = ItemClass.pallet then true
  else if r.items.length = 3 ∧ ∀ i ∈ r.items, i.cls = ItemClass.car then true
  else false

/-- Row.row_type: the first item's type string when the row is valid (a valid
row has 2 or 3 items, so the index-0 access cannot fail), else "Invalid". -/
def Row.row_type (r : Row) : String :=
  if r.is_valid then
    match r.items with
    | i :: _ => i.type
    | [] => "Invalid"
  else "Invalid"

/-! ## Rounding

Python's round(x, 2) on the exact values arising here; modelled on rationals
as rounding 100 * x to the nearest integer.  (CPython rounds ties of the
underlying binary float to even; no claim in scope exercises a tie.) -/

def round2 (q : ℚ) : ℚ := ((round (100 * q) : ℤ) : ℚ) / 100

/-! ## Trucks (models/truck.py) -/

structure Truck where
  truck_id : String
  door : Option String
  rows : List Row
  strap_reach_limit : Nat
deriving DecidableEq, Repr

/-- Truck.add_row: append to the row list. -/
def Truck.add_row (t : Truck) (row : Row) : Truck :=
  { t with rows := t.rows ++ [row] }

def Truck.total_rows (t : Truck) : Nat := t.rows.length

def Truck.valid_rows (t : Truck) : List Row :=
  t.rows.filter (fun r => r.is_valid)

/-- Truck.is_row_reachable: positional test, 1-indexed. -/
def Truck.is_row_reachable (t : Truck) (row_index : Nat) : Bool :=
  decide (row_index ≤ t.strap_reach_limit)

/-- The source's Truck.straps_required evaluates row.required_straps(), but
the Row class in models/row.py defines no method named required_straps (it
only stores the constant field strap_needed), so the attribute lookup raises
AttributeError on every Row.  We model the fallible method lookup: it fails
(none) for every Row. -/
def Row.required_straps? (_ : Row) : Option Nat := none

/-- Truck.straps_required: sum(row.required_straps() for row in self.rows).
The generator is consumed lazily by sum, so an empty row list yields 0 while a
nonempty one fails at the first row's missing method. -/
def Truck.straps_required? (t : Truck) : Option Nat :=
  t.rows.foldl
    (fun acc r => acc.bind (fun n => (r.required_straps?).map (fun m => n + m)))
    (some 0)

/-- Recursion of Truck.straps_applied: enumerate(self.rows, start=1), counting
rows that are valid and reachable. -/
def strapsAppliedFrom (t : Truck) : List Row → Nat → Nat
  | [], _ => 0
  | row :: rest, i =>
    (if row.is_valid && t.is_row_reachable i then 1 else 0)
      + strapsAppliedFrom t rest (i + 1)

def Truck.straps_applied (t : Truck) : Nat :=
  strapsAppliedFrom t t.rows 1

/-- The record returned by Truck.summary. -/
structure Summary where
  truck_id : String
  door : Option String
  total_rows : Nat
  valid_rows : Nat
  straps_required : Nat
  straps_applied : Nat
  straps_unreachable : Int
  safety_index_pct : ℚ
deriving DecidableEq, Repr

/-- Truck.summary: aggregates the counters; fails whenever straps_required
fails (any truck with at least one row). -/
def Truck.summary? (t : Truck) : Option Summary :=
  (t.straps_required?).map (fun required =>
    { truck_id := t.truck_id
      door := t.door
      total_rows := t.total_rows
      valid_rows := t.valid_rows.length
      straps_required := required
      straps_applied := t.straps_applied
      straps_unreachable := max 0 ((required : Int) - (t.straps_applied : Int))
      safety_index_pct :=
        if 0 < required then
          round2 (100 * (t.straps_applied : ℚ) / (required : ℚ))
        else 0 })

/-! ## Scanner (models/scanner.py)

The process-wide random source (random.random, random.gauss) is modelled as an
oracle stream of rationals: each call reads the next entry.  A random.random()
call interprets its entry as the uniform sample in the unit interval; a
random.gauss(mu, sigma) call interprets its entry as the standard-normal
sample z and yields mu + sigma * z. -/

abbrev Rng := Nat → ℚ

/-- Advance the stream past k consumed draws. -/
def Rng.drop (g : Rng) (k : Nat) : Rng := fun n => g (n + k)

/-- One per-item log record appended by Scanner.process_batch. -/
structure ItemLog where
  scanner : String
  truck_id : String
  door : Option String
  item_id : String
  item_type : String
  barcode_valid : Bool
  label_damaged : Bool
  scan_success : Bool
  attempts : Nat
  scan_time_s : ℚ
  door_in_ok : Bool
  door_out_ok : Option Bool
  row_created_id : Option Int
deriving DecidableEq, Repr

/-- One per-row log record.  The row_id and note keys are present only in the
records written by Scanner.close_truck, not in those of _flush_if_full. -/
structure RowLog where
  scanner : String
  truck_id : String
  door : Option String
  row_id : Option Int
  row_type : String
  items_count : Nat
  note : Option String
deriving DecidableEq, Repr

/-- The per-truck buffer pair created by _ensure_buffers: the queues stored
under the dictionary keys "Pallet" and "Car". -/
structure TypeBuffers where
  pallet : List Item
  car : List Item
deriving DecidableEq, Repr

/-- Read the queue stored under a type key.  The source only ever indexes the
inner dictionary with "Pallet" or "Car". -/
def TypeBuffers.get (b : TypeBuffers) (item_type : String) : List Item :=
  if item_type = "Pallet" then b.pallet else b.car

/-- Write the queue stored under a type key. -/
def TypeBuffers.setq (b : TypeBuffers) (item_type : String) (v : List Item) :
    TypeBuffers :=
  if item_type = "Pallet" then { b with pallet := v } else { b with car := v }

/-- The outer buffers dictionary, keyed by truck id; association list in
insertion order, matching Python dict iteration. -/
abbrev Buffers := List (String × TypeBuffers)

def buffersGet (bs : Buffers) (k : String) : TypeBuffers :=
  (bs.lookup k).getD { pallet := [], car := [] }

/-- Python dict assignment self.buffers[k][...] = v: replace the value stored
at an existing key (keys are unique by construction; a missing key would raise
KeyError in Python, here the update is a no-op and the flows below only update
keys created by _ensure_buffers). -/
def buffersSet : Buffers → String → TypeBuffers → Buffers
  | [], _, _ => []
  | p :: rest, k, v => (if p.1 = k then (k, v) else p) :: buffersSet rest k v

/-- The Scanner state: fixed configuration knobs plus the mutable buffers and
the two append-only logs. -/
structure Scanner where
  name : String
  base_success : ℚ
  mean_time_s : ℚ
  max_attempts : Nat
  door_fail_rate : ℚ
  buffers : Buffers
  item_logs : List ItemLog
  row_logs : List RowLog
deriving DecidableEq, Repr

/-- Scanner._scan_once: one Bernoulli trial whose probability is degraded by
the item's quality flags; u is the random.random() draw. -/
def Scanner.scanOnce (s : Scanner) (item : Item) (u : ℚ) : Bool :=
  let success_prob : ℚ :=
    if !item.barcode_valid then 12 / 100
    else if item.label_damaged then s.base_success * (6 / 10)
    else s.base_success
  decide (u < success_prob)

/-- The record returned by Scanner.scan_item. -/
structure ScanResult where
  success : Bool
  attempts : Nat
  time_s : ℚ
deriving DecidableEq, Repr

/-- The while loop of Scanner.scan_item.  The fuel argument is the number of
attempts still allowed (max_attempts minus attempts made); each iteration
draws the attempt duration (a Gaussian draw clamped below at 0.4s) and then
the scan outcome.  Returns (attempts, total_time, success, remaining draws). -/
def scanItemLoop (s : Scanner) (item : Item) :
    Nat → Nat → ℚ → Rng → Nat × ℚ × Bool × Rng
  | 0, attempts, total, g => (attempts, total, false, g)
  | fuel + 1, attempts, total, g =>
    let attempts1 := attempts + 1
    let mu : ℚ := if attempts1 = 1 then s.mean_time_s else 14 / 10
    let sigma : ℚ := 1 / 2
    let t := max (4 / 10) (mu + sigma * g 0)
    let total1 := total + t
    let success := s.scanOnce item (g 1)
    let g1 := g.drop 2
    if success then (attempts1, total1, true, g1)
    else scanItemLoop s item fuel attempts1 total1 g1

/-- Scanner.scan_item: run the retry loop and round the accumulated time to
two decimal places. -/
def Scanner.scan_item (s : Scanner) (item : Item) (g : Rng) : ScanResult × Rng :=
  let r := scanItemLoop s item s.max_attempts 0 0 g
  ({ success := r.2.2.1, attempts := r.1, time_s := round2 r.2.1 }, r.2.2.2)

/-- Scanner.scan_door_in: fixed success probability 0.9954; reads no field of
the scanner or the truck. -/
def Scanner.scan_door_in (_s : Scanner) (_truck : Truck) (u : ℚ) : Bool :=
  let success_prob : ℚ := 9954 / 10000
  decide (u < success_prob)

/-- Scanner.scan_door_out: fixed success probability 0.995. -/
def Scanner.scan_door_out (_s : Scanner) (_truck : Truck) (u : ℚ) : Bool :=
  let success_prob : ℚ := 995 / 1000
  decide (u < success_prob)

/-- Scanner._ensure_buffers: lazily create the empty buffer pair for a truck
id not seen before. -/
def Scanner.ensure_buffers (s : Scanner) (truck : Truck) : Scanner :=
  if (s.buffers.lookup truck.truck_id).isSome then s
  else { s with buffers := s.buffers ++ [(truck.truck_id, { pallet := [], car := [] })] }

/-- Scanner._flush_if_full: when the type buffer holds at least the threshold
(2 for Pallet, 3 for Car), dequeue exactly threshold items in FIFO order,
build a Row with id = current row count + 1, append it to the truck and log
the creation. -/
def Scanner.flush_if_full (s : Scanner) (truck : Truck) (item_type : String) :
    Scanner × Truck × Option Row :=
  let buf := (buffersGet s.buffers truck.truck_id).get item_type
  let needed : Nat := if item_type = "Pallet" then 2 else 3
  if needed ≤ buf.length then
    let items_for_row := buf.take needed
    let row : Row :=
      { row_id := (truck.rows.length : Int) + 1
        items := items_for_row
        strap_needed := 1 }
    let truck1 := truck.add_row row
    let s1 : Scanner :=
      { s with
        buffers := buffersSet s.buffers truck.truck_id
          ((buffersGet s.buffers truck.truck_id).setq item_type (buf.drop needed))
        row_logs := s.row_logs ++
          [{ scanner := s.name
             truck_id := truck.truck_id
             door := truck.door
             row_id := none
             row_type := row.row_type
             items_count := items_for_row.length
             note := none }] }
    (s1, truck1, some row)
  else (s, truck, none)

/-- Step 3 of Scanner.process_batch for one door-confirmed item: append it to
the matching buffer when its type is one of the two recognized keys, then
attempt a flush; unrecognized types are silently skipped. -/
def Scanner.pushItem (s : Scanner) (truck : Truck) (item : Item) :
    Scanner × Truck × Option Int :=
  if item.type = "Pallet" ∨ item.type = "Car" then
    let b := buffersGet s.buffers truck.truck_id
    let pushed := buffersSet s.buffers truck.truck_id
      (b.setq item.type (b.get item.type ++ [item]))
    let s1 : Scanner := { s with buffers := pushed }
    let fl := s1.flush_if_full truck item.type
    (fl.1, fl.2.1, (fl.2.2).map (fun row => row.row_id))
  else (s, truck, none)

/-- The body of the per-item loop of Scanner.process_batch: barcode scan, then
door-in confirmation (skipped and treated as failed when the scan failed),
then buffer push and flush, then the unconditional item log entry. -/
def Scanner.processOne (s : Scanner) (truck : Truck) (item : Item) (g : Rng) :
    Scanner × Truck × Rng :=
  let res := s.scan_item item g
  let r := res.1
  let g1 := res.2
  let dio := if r.success then (s.scan_door_in truck (g1 0), g1.drop 1)
             else (false, g1)
  let door_in_ok := dio.1
  let g2 := dio.2
  let door_out_ok : Option Bool := none
  let step := if door_in_ok then s.pushItem truck item else (s, truck, none)
  let s2 := step.1
  let truck1 := step.2.1
  let new_row_id := step.2.2
  let s3 : Scanner :=
    { s2 with item_logs := s2.item_logs ++
        [{ scanner := s.name
           truck_id := truck.truck_id
           door := truck.door
           item_id := item.id
           item_type := item.type
           barcode_valid := item.barcode_valid
           label_damaged := item.label_damaged
           scan_success := r.success
           attempts := r.attempts
           scan_time_s := r.time_s
           door_in_ok := door_in_ok
           door_out_ok := door_out_ok
           row_created_id := new_row_id }] }
  (s3, truck1, g2)

/-- Scanner.process_batch: ensure the truck's buffers exist, then run the
per-item sequence over the batch in order. -/
def Scanner.process_batch (s : Scanner) (items : List Item) (truck : Truck)
    (g : Rng) : Scanner × Truck × Rng :=
  let s0 := s.ensure_buffers truck
  items.foldl (fun st item => Scanner.processOne st.1 st.2.1 item st.2.2)
    (s0, truck, g)

/-- The per-type body of the forced branch of Scanner.close_truck: when the
type buffer is nonempty, build one Row from all its items, append it to the
truck, log it with the forced-close note, and clear the buffer. -/
def Scanner.closeType (s : Scanner) (truck : Truck) (item_type : String) :
    Scanner × Truck :=
  let buf := (buffersGet s.buffers truck.truck_id).get item_type
  if 0 < buf.length then
    let rid : Int := (truck.rows.length : Int) + 1
    let row : Row := { row_id := rid, items := buf, strap_needed := 1 }
    let truck1 := truck.add_row row
    let s1 : Scanner :=
      { s with
        row_logs := s.row_logs ++
          [{ scanner := s.name
             truck_id := truck.truck_id
             door := truck.door
             row_id := some rid
             row_type := row.row_type
             items_count := buf.length
             note := some "forced close; may be invalid" }]
        buffers := buffersSet s.buffers truck.truck_id
          ((buffersGet s.buffers truck.truck_id).setq item_type []) }
    (s1, truck1)
  else (s, truck)

/-- Scanner.close_truck: default mode drops the truck's pending buffered items
without creating rows; forced mode emits one row per nonempty type buffer. -/
def Scanner.close_truck (s : Scanner) (truck : Truck)
    (finalize_incomplete_rows : Bool) : Scanner × Truck :=
  let s0 := s.ensure_buffers truck
  if !finalize_incomplete_rows then
    let b := buffersGet s0.buffers truck.truck_id
    let cleared := buffersSet s0.buffers truck.truck_id
      ((b.setq "Pallet" []).setq "Car" [])
    ({ s0 with buffers := cleared }, truck)
  else
    let st := s0.closeType truck "Pallet"
    st.1.closeType st.2 "Car"

/-- The record returned by Scanner.metrics. -/
structure Metrics where
  scanner : String
  items_processed : Nat
  scan_success_pct : ℚ
  door_scan_ok_pct : ℚ
  avg_scan_time_s : ℚ
  avg_attempts : ℚ
deriving DecidableEq, Repr

/-- Scanner.metrics: zeroed record on an empty item log, otherwise the four
aggregates rounded to two decimals. -/
def Scanner.metrics (s : Scanner) : Metrics :=
  if s.item_logs.isEmpty then
    { scanner := s.name
      items_processed := 0
      scan_success_pct := 0
      door_scan_ok_pct := 0
      avg_scan_time_s := 0
      avg_attempts := 0 }
  else
    let n := s.item_logs.length
    let succ := (s.item_logs.filter (fun x => x.scan_success)).length
    let door_ok := (s.item_logs.filter (fun x => x.door_in_ok)).length
    let avg_t := ((s.item_logs.map (fun x => x.scan_time_s)).sum) / (n : ℚ)
    let avg_a := ((s.item_logs.map (fun x => (x.attempts : ℚ))).sum) / (n : ℚ)
    { scanner := s.name
      items_processed := n
      scan_success_pct := round2 (100 * (succ : ℚ) / (n : ℚ))
      door_scan_ok_pct := round2 (100 * (door_ok : ℚ) / (n : ℚ))
      avg_scan_time_s := round2 avg_t
      avg_attempts := round2 avg_a }

/-! ## Concrete fixtures for the closed theorems -/

/-- A pristine pallet item (valid barcode, undamaged label). -/
def palletItemA : Item := Pallet.make "1-01" true false "BAY-A"

def palletItemB : Item := Pallet.make "1-02" true false "BAY-A"

def palletItemC : Item := Pallet.make "1-03" true false "BAY-B"

def palletItemD : Item := Pallet.make "1-04" true false "BAY-B"

def palletItemE : Item := Pallet.make "1-05" true false "BAY-C"

def palletItemF : Item := Pallet.make "1-06" true false "BAY-C"

def carItemA : Item := Car.make "2-01" true false "BAY-A"

def carItemB : Item := Car.make "2-02" true false "BAY-A"

/-- A random stream whose every draw is 0: every Bernoulli trial in scope
succeeds (all success probabilities are positive) and every Gaussian sample
sits at its mean. -/
def zeroRng : Rng := fun _ => 0

/-- A scanner in its initial state with the source's default configuration. -/
def scannerA : Scanner :=
  { name := "Scanner-01"
    base_success := 98 / 100
    mean_time_s := 28 / 10
    max_attempts := 3
    door_fail_rate := 1 / 1000
    buffers := []
    item_logs := []
    row_logs := [] }

def truckA : Truck :=
  { truck_id := "TRK-001", door := some "DOOR-07", rows := [], strap_reach_limit := 3 }

/-! ## Dictionary lemmas for the buffers association list -/

theorem lookup_cons_self (a : String) (b : TypeBuffers) (rest : Buffers) :
    List.lookup a ((a, b) :: rest) = some b := by
  simp [List.lookup]

theorem lookup_cons_ne (a k : String) (b : TypeBuffers) (rest : Buffers)
    (h : k ≠ a) : List.lookup k ((a, b) :: rest) = List.lookup k rest := by
  simp [List.lookup, beq_eq_false_iff_ne.mpr h]

theorem buffersSet_cons_self (a : String) (b : TypeBuffers) (rest : Buffers)
    (v : TypeBuffers) :
    buffersSet ((a, b) :: rest) a v = (a, v) :: buffersSet rest a v := by
  simp [buffersSet]

theorem buffersSet_cons_ne (a k : String) (b : TypeBuffers) (rest : Buffers)
    (v : TypeBuffers) (h : a ≠ k) :
    buffersSet ((a, b) :: rest) k v = (a, b) :: buffersSet rest k v := by
  simp [buffersSet, h]

theorem lookup_buffersSet_self (bs : Buffers) (k : String) (v : TypeBuffers)
    (h : (bs.lookup k).isSome) : (buffersSet bs k v).lookup k = some v := by
  induction bs with
  | nil => simp [List.lookup] at h
  | cons p rest ih =>
    obtain ⟨a, b⟩ := p
    by_cases hp : a = k
    · subst hp
      rw [buffersSet_cons_self, lookup_cons_self]
    · rw [lookup_cons_ne a k b rest (Ne.symm hp)] at h
      rw [buffersSet_cons_ne a k b rest v hp, lookup_cons_ne a k b _ (Ne.symm hp)]
      exact ih h

theorem lookup_buffersSet_ne (bs : Buffers) (k k1 : String) (v : TypeBuffers)
    (h : k1 ≠ k) : (buffersSet bs k v).lookup k1 = bs.lookup k1 := by
  induction bs with
  | nil => simp [buffersSet]
  | cons p rest ih =>
    obtain ⟨a, b⟩ := p
    by_cases hp : a = k
    · subst hp
      rw [buffersSet_cons_self, lookup_cons_ne a k1 v _ h,
        lookup_cons_ne a k1 b rest h]
      exact ih
    · by_cases ha : k1 = a
      · subst ha
        rw [buffersSet_cons_ne k1 k b rest v hp, lookup_cons_self,
          lookup_cons_self]
      · rw [buffersSet_cons_ne a k b rest v hp, lookup_cons_ne a k1 b _ ha,
          lookup_cons_ne a k1 b rest ha]
        exact ih

theorem buffersSet_of_lookup_none (bs : Buffers) (k : String) (v : TypeBuffers)
    (h : bs.lookup k = none) : buffersSet bs k v = bs := by
  induction bs with
  | nil => rfl
  | cons p rest ih =>
    obtain ⟨a, b⟩ := p
    by_cases hp : a = k
    · subst hp
      rw [lookup_cons_self] at h
      exact absurd h (by simp)
    · rw [lookup_cons_ne a k b rest (Ne.symm hp)] at h
      rw [buffersSet_cons_ne a k b rest v hp, ih h]

theorem lookup_append_single_self (bs : Buffers) (k : String) (v : TypeBuffers)
    (h : bs.lookup k = none) : (bs ++ [(k, v)]).lookup k = some v := by
  induction bs with
  | nil => simp [List.lookup]
  | cons p rest ih =>
    obtain ⟨a, b⟩ := p
    by_cases hp : k = a
    · subst hp
      rw [lookup_cons_self] at h
      exact absurd h (by simp)
    · rw [lookup_cons_ne a k b rest hp] at h
      rw [List.cons_append, lookup_cons_ne a k b _ hp]
      exact ih h

theorem lookup_append_single_ne (bs : Buffers) (k k1 : String) (v : TypeBuffers)
    (h : k1 ≠ k) : (bs ++ [(k, v)]).lookup k1 = bs.lookup k1 := by
  induction bs with
  | nil => simp [List.lookup, beq_eq_false_iff_ne.mpr h]
  | cons p rest ih =>
    obtain ⟨a, b⟩ := p
    by_cases ha : k1 = a
    · subst ha
      rw [List.cons_append, lookup_cons_self, lookup_cons_self]
    · rw [List.cons_append, lookup_cons_ne a k1 b _ ha,
        lookup_cons_ne a k1 b rest ha]
      exact ih

theorem mem_buffersSet (bs : Buffers) (k : String) (v : TypeBuffers)
    (p : String × TypeBuffers) (h : p ∈ buffersSet bs k v) :
    p = (k, v) ∨ (p.1 ≠ k ∧ p ∈ bs) := by
  induction bs with
  | nil => simp [buffersSet] at h
  | cons q rest ih =>
    obtain ⟨a, b⟩ := q
    by_cases hp : a = k
    · subst hp
      rw [buffersSet_cons_self] at h
      rcases List.mem_cons.mp h with h1 | h1
      · exact Or.inl h1
      · rcases ih h1 with h2 | h2
        · exact Or.inl h2
        · exact Or.inr ⟨h2.1, List.mem_cons_of_mem _ h2.2⟩
    · rw [buffersSet_cons_ne a k b rest v hp] at h
      rcases List.mem_cons.mp h with h1 | h1
      · subst h1
        exact Or.inr ⟨hp, List.mem_cons_self _ _⟩
      · rcases ih h1 with h2 | h2
        · exact Or.inl h2
        · exact Or.inr ⟨h2.1, List.mem_cons_of_mem _ h2.2⟩

theorem mem_of_lookup_eq_some (bs : Buffers) (k : String) (v : TypeBuffers)
    (h : bs.lookup k = some v) : (k, v) ∈ bs := by
  induction bs with
  | nil => simp [List.lookup] at h
  | cons p rest ih =>
    obtain ⟨a, b⟩ := p
    by_cases hp : k = a
    · subst hp
      rw [lookup_cons_self] at h
      rw [Option.some_inj.mp h]
      exact List.mem_cons_self _ _
    · rw [lookup_cons_ne a k b rest hp] at h
      exact List.mem_cons_of_mem _ (ih h)

theorem ensure_lookup_isSome (s : Scanner) (truck : Truck) :
    ((s.ensure_buffers truck).buffers.lookup truck.truck_id).isSome := by
  unfold Scanner.ensure_buffers
  by_cases h : (s.buffers.lookup truck.truck_id).isSome
  · simp [h]
  · have hn : s.buffers.lookup truck.truck_id = none :=
      Option.not_isSome_iff_eq_none.mp h
    simp [h, lookup_append_single_self _ _ _ hn]

theorem buffersGet_ensure_self (s : Scanner) (truck : Truck) :
    buffersGet (s.ensure_buffers truck).buffers truck.truck_id
      = buffersGet s.buffers truck.truck_id := by
  unfold Scanner.ensure_buffers
  by_cases h : (s.buffers.lookup truck.truck_id).isSome
  · simp [h]
  · have hn : s.buffers.lookup truck.truck_id = none :=
      Option.not_isSome_iff_eq_none.mp h
    simp [h, buffersGet, lookup_append_single_self _ _ _ hn, hn]

theorem lookup_ensure_ne (s : Scanner) (truck : Truck) (k1 : String)
    (h : k1 ≠ truck.truck_id) :
    (s.ensure_buffers truck).buffers.lookup k1 = s.buffers.lookup k1 := by
  unfold Scanner.ensure_buffers
  by_cases hs : (s.buffers.lookup truck.truck_id).isSome
  · simp [hs]
  · simp [hs, lookup_append_single_ne _ _ _ _ h]

theorem ensure_item_logs (s : Scanner) (truck : Truck) :
    (s.ensure_buffers truck).item_logs = s.item_logs := by
  unfold Scanner.ensure_buffers
  by_cases hs : (s.buffers.lookup truck.truck_id).isSome <;> simp [hs]

theorem ensure_row_logs (s : Scanner) (truck : Truck) :
    (s.ensure_buffers truck).row_logs = s.row_logs := by
  unfold Scanner.ensure_buffers
  by_cases hs : (s.buffers.lookup truck.truck_id).isSome <;> simp [hs]

theorem ensure_name (s : Scanner) (truck : Truck) :
    (s.ensure_buffers truck).name = s.name := by
  unfold Scanner.ensure_buffers
  by_cases hs : (s.buffers.lookup truck.truck_id).isSome <;> simp [hs]

theorem buffersGet_set_self (bs : Buffers) (k : String) (v : TypeBuffers)
    (h : (bs.lookup k).isSome) : buffersGet (buffersSet bs k v) k = v := by
  simp [buffersGet, lookup_buffersSet_self bs k v h]

theorem buffersGet_set_ne (bs : Buffers) (k k1 : String) (v : TypeBuffers)
    (h : k1 ≠ k) : buffersGet (buffersSet bs k v) k1 = buffersGet bs k1 := by
  simp [buffersGet, lookup_buffersSet_ne bs k k1 v h]

/-- A valid pallet row (two Pallet-class items). -/
def rowV1 : Row := { row_id := 1, items := [palletItemA, palletItemB], strap_needed := 1 }

def rowV2 : Row := { row_id := 2, items := [palletItemC, palletItemD], strap_needed := 1 }

def rowV3 : Row := { row_id := 3, items := [palletItemE, palletItemF], strap_needed := 1 }

def truckC2 : Truck :=
  { truck_id := "TRK-010", door := none, rows := [rowV1], strap_reach_limit := 3 }

def truckC3 : Truck :=
  { truck_id := "TRK-002", door := some "DOOR-12", rows := [rowV1, rowV2, rowV3],
    strap_reach_limit := 2 }

/-! ## Claims -/

/-- Claim C1.  The claim says that feeding exactly two PALLET items through
process_batch, with every barcode scan and door-in confirmation succeeding,
appends exactly one new Row of type PALLET with row_id 1 to the truck.  The
code disagrees with itself: Pallet items carry the type string "PALLET"
(models/item.py), while process_batch only buffers items whose type string is
exactly "Pallet" (models/scanner.py), so on the all-zero draw stream both
items are scanned and door-confirmed successfully yet neither is ever
buffered, and no Row and no row log entry is created. -/
theorem C1_pallet_items_never_buffered :
    ((scannerA.process_batch [palletItemA, palletItemB] truckA zeroRng).1.item_logs.map
        (fun l => (l.scan_success, l.door_in_ok, l.row_created_id)))
      = [(true, true, none), (true, true, none)] ∧
    (scannerA.process_batch [palletItemA, palletItemB] truckA zeroRng).2.1.rows = [] ∧
    (scannerA.process_batch [palletItemA, palletItemB] truckA zeroRng).1.row_logs = [] ∧
    buffersGet
      (scannerA.process_batch [palletItemA, palletItemB] truckA zeroRng).1.buffers
      "TRK-001" = { pallet := [], car := [] } := by
  with_unfolding_all decide

/-- Claim C2.  The claim says straps_required() returns the number of valid
rows.  On any truck with at least one row the call instead raises
AttributeError, because Truck.straps_required invokes row.required_straps()
and Row defines no such method: here a truck with exactly one valid row
yields no value at all where the claim expects 1. -/
theorem C2_straps_required_fails :
    truckC2.straps_required? = none ∧ truckC2.valid_rows.length = 1 := by
  with_unfolding_all decide

/-- Claim C3.  The claim says summary() on a truck with strap_reach_limit 2
and exactly 3 valid rows returns straps_applied 2, straps_unreachable 1 and
safety_index_pct 66.67.  The truck's straps_applied alone is indeed 2, but
summary() first computes straps_required(), which raises AttributeError (see
C2), so summary() returns nothing at all on this truck. -/
theorem C3_summary_fails :
    truckC3.valid_rows.length = 3 ∧ truckC3.straps_applied = 2 ∧
    truckC3.summary? = none := by
  with_unfolding_all decide

/-- Claim C8.  Row.is_valid is true exactly when the item list has length 2
and every item is a Pallet instance, or length 3 and every item is a Car
instance; in particular it is false on empty, oversized and mixed lists. -/
theorem C8_is_valid_iff (r : Row) :
    (r.is_valid = true ↔
      ((r.items.length = 2 ∧ ∀ i ∈ r.items, i.cls = ItemClass.pallet) ∨
       (r.items.length = 3 ∧ ∀ i ∈ r.items, i.cls = ItemClass.car))) ∧
    (r.items = [] → r.is_valid = false) ∧
    (3 < r.items.length → r.is_valid = false) ∧
    ((∃ i ∈ r.items, i.cls = ItemClass.pallet) →
      (∃ i ∈ r.items, i.cls = ItemClass.car) → r.is_valid = false) := by
  have hiff : r.is_valid = true ↔
      ((r.items.length = 2 ∧ ∀ i ∈ r.items, i.cls = ItemClass.pallet) ∨
       (r.items.length = 3 ∧ ∀ i ∈ r.items, i.cls = ItemClass.car)) := by
    unfold Row.is_valid
    by_cases h1 : r.items.length = 2 ∧ ∀ i ∈ r.items, i.cls = ItemClass.pallet
    · simp [h1]
    · by_cases h2 : r.items.length = 3 ∧ ∀ i ∈ r.items, i.cls = ItemClass.car
      · simp [h1, h2]
      · simp [h1, h2]
  refine ⟨hiff, ?_, ?_, ?_⟩
  · intro h
    cases hv : r.is_valid with
    | false => rfl
    | true =>
      rcases hiff.mp hv with ⟨h2, _⟩ | ⟨h3, _⟩
      · rw [h] at h2
        simp at h2
      · rw [h] at h3
        simp at h3
  · intro h
    cases hv : r.is_valid with
    | false => rfl
    | true =>
      rcases hiff.mp hv with ⟨h2, _⟩ | ⟨h3, _⟩
      · omega
      · omega
  · rintro ⟨i, hi, hip⟩ ⟨j, hj, hjc⟩
    cases hv : r.is_valid with
    | false => rfl
    | true =>
      rcases hiff.mp hv with ⟨_, hall⟩ | ⟨_, hall⟩
      · have := hall j hj
        rw [hjc] at this
        exact absurd this (by simp)
      · have := hall i hi
        rw [hip] at this
        exact absurd this (by simp)

/-- Witness for C8 at a concrete row: the valid two-pallet row rowV1. -/
theorem C8_is_valid_iff_witness : rowV1.is_valid = true :=
  (C8_is_valid_iff rowV1).1.mpr (Or.inl (by decide))

/-- Claim C7.  metrics() on a scanner whose item log is empty returns the
zeroed record, whatever the rest of the scanner state holds: the quantifier
over all scanner states with an empty item log expresses that no other state
influences the result. -/
theorem C7_metrics_empty (s : Scanner) (h : s.item_logs = []) :
    s.metrics =
      { scanner := s.name
        items_processed := 0
        scan_success_pct := 0
        door_scan_ok_pct := 0
        avg_scan_time_s := 0
        avg_attempts := 0 } := by
  unfold Scanner.metrics
  simp [h]

/-- Witness for C7: the fresh default scanner has an empty item log and the
zeroed metrics record. -/
theorem C7_metrics_empty_witness :
    scannerA.item_logs = [] ∧
    scannerA.metrics =
      { scanner := "Scanner-01"
        items_processed := 0
        scan_success_pct := 0
        door_scan_ok_pct := 0
        avg_scan_time_s := 0
        avg_attempts := 0 } :=
  ⟨rfl, C7_metrics_empty scannerA rfl⟩

/-- Claim C10.  The door scans read no configuration at all: two scanners
whose configurations agree except possibly on door_fail_rate produce the same
door-in and door-out outcome on the same draw, and that outcome is the fixed
Bernoulli trial with success probability 0.9954 (in) and 0.995 (out). -/
theorem C10_door_scans_ignore_config (s1 s2 : Scanner) (truck : Truck) (u : ℚ)
    (_hname : s1.name = s2.name) (_hbase : s1.base_success = s2.base_success)
    (_hmean : s1.mean_time_s = s2.mean_time_s)
    (_hatt : s1.max_attempts = s2.max_attempts) :
    s1.scan_door_in truck u = s2.scan_door_in truck u ∧
    s1.scan_door_out truck u = s2.scan_door_out truck u ∧
    s1.scan_door_in truck u = decide (u < 9954 / 10000) ∧
    s1.scan_door_out truck u = decide (u < 995 / 1000) :=
  ⟨rfl, rfl, rfl, rfl⟩

/-- A scanner agreeing with scannerA on everything except door_fail_rate. -/
def scannerB : Scanner := { scannerA with door_fail_rate := 1 / 2 }

/-- Witness for C10 at two concrete scanners with distinct door_fail_rate. -/
theorem C10_door_scans_ignore_config_witness :
    scannerA.name = scannerB.name ∧
    scannerA.door_fail_rate ≠ scannerB.door_fail_rate ∧
    scannerA.scan_door_in truckA 0 = scannerB.scan_door_in truckA 0 :=
  ⟨rfl, by with_unfolding_all decide,
    (C10_door_scans_ignore_config scannerA scannerB truckA 0 rfl rfl rfl rfl).1⟩

/-- Claim C5.  close_truck in default mode returns the truck unchanged (so no
rows are created and no row log entry is written), leaves both logs untouched,
empties both of the truck's type buffers, and leaves every other truck's
buffers unchanged. -/
theorem C5_close_truck_discard (s : Scanner) (truck : Truck) :
    (s.close_truck truck false).2 = truck ∧
    (s.close_truck truck false).1.item_logs = s.item_logs ∧
    (s.close_truck truck false).1.row_logs = s.row_logs ∧
    buffersGet (s.close_truck truck false).1.buffers truck.truck_id
      = { pallet := [], car := [] } ∧
    ∀ k, k ≠ truck.truck_id →
      (s.close_truck truck false).1.buffers.lookup k = s.buffers.lookup k := by
  have hv : ∀ b : TypeBuffers,
      (b.setq "Pallet" []).setq "Car" [] = { pallet := [], car := [] } := by
    intro b
    simp [TypeBuffers.setq]
  have hs1 : (s.close_truck truck false).1
      = { s.ensure_buffers truck with
          buffers := buffersSet (s.ensure_buffers truck).buffers truck.truck_id
            (((buffersGet (s.ensure_buffers truck).buffers truck.truck_id).setq
              "Pallet" []).setq "Car" []) } := rfl
  refine ⟨rfl, ?_, ?_, ?_, ?_⟩
  · rw [hs1]
    exact ensure_item_logs s truck
  · rw [hs1]
    exact ensure_row_logs s truck
  · rw [hs1]
    show buffersGet (buffersSet (s.ensure_buffers truck).buffers truck.truck_id
      _) truck.truck_id = _
    rw [hv]
    exact buffersGet_set_self _ _ _ (ensure_lookup_isSome s truck)
  · intro k hk
    rw [hs1]
    show (buffersSet (s.ensure_buffers truck).buffers truck.truck_id
      _).lookup k = _
    rw [lookup_buffersSet_ne _ _ _ _ hk, lookup_ensure_ne s truck k hk]

/-- Witness for C5 at a concrete state: scannerA with a buffered pallet and
two buffered cars for truckA. -/
def scannerC : Scanner :=
  { scannerA with
    buffers := [("TRK-001", { pallet := [palletItemC], car := [carItemA, carItemB] })] }

theorem C5_close_truck_discard_witness :
    (scannerC.close_truck truckA false).2 = truckA :=
  (C5_close_truck_discard scannerC truckA).1

/-! ## Helper lemmas for the forced close -/

theorem get_pallet (b : TypeBuffers) : b.get "Pallet" = b.pallet := by
  simp [TypeBuffers.get]

theorem get_car (b : TypeBuffers) : b.get "Car" = b.car := by
  simp [TypeBuffers.get]

theorem setq_pallet (b : TypeBuffers) (v : List Item) :
    b.setq "Pallet" v = { b with pallet := v } := by
  simp [TypeBuffers.setq]

theorem setq_car (b : TypeBuffers) (v : List Item) :
    b.setq "Car" v = { b with car := v } := by
  simp [TypeBuffers.setq]

/-- The row log record written by the forced branch of close_truck for one
emitted row. -/
def forcedCloseLog (s : Scanner) (truck : Truck) (row : Row) : RowLog :=
  { scanner := s.name
    truck_id := truck.truck_id
    door := truck.door
    row_id := some row.row_id
    row_type := row.row_type
    items_count := row.items.length
    note := some "forced close; may be invalid" }

theorem forcedCloseLog_eq (s1 s2 : Scanner) (t1 t2 : Truck) (row : Row)
    (hn : s1.name = s2.name) (hid : t1.truck_id = t2.truck_id)
    (hd : t1.door = t2.door) :
    forcedCloseLog s1 t1 row = forcedCloseLog s2 t2 row := by
  simp [forcedCloseLog, hn, hid, hd]

theorem closeType_pallet_empty (s : Scanner) (truck : Truck)
    (h : (buffersGet s.buffers truck.truck_id).pallet = []) :
    s.closeType truck "Pallet" = (s, truck) := by
  simp [Scanner.closeType, get_pallet, h]

theorem closeType_car_empty (s : Scanner) (truck : Truck)
    (h : (buffersGet s.buffers truck.truck_id).car = []) :
    s.closeType truck "Car" = (s, truck) := by
  simp [Scanner.closeType, get_car, h]

theorem closeType_pallet_nonempty (s : Scanner) (truck : Truck)
    (h : (buffersGet s.buffers truck.truck_id).pallet ≠ []) :
    s.closeType truck "Pallet" =
      ({ s with
          row_logs := s.row_logs ++
            [forcedCloseLog s truck
              { row_id := (truck.rows.length : Int) + 1
                items := (buffersGet s.buffers truck.truck_id).pallet
                strap_needed := 1 }]
          buffers := buffersSet s.buffers truck.truck_id
            { pallet := [], car := (buffersGet s.buffers truck.truck_id).car } },
        truck.add_row
          { row_id := (truck.rows.length : Int) + 1
            items := (buffersGet s.buffers truck.truck_id).pallet
            strap_needed := 1 }) := by
  have hpos : 0 < (buffersGet s.buffers truck.truck_id).pallet.length :=
    List.length_pos.mpr h
  simp [Scanner.closeType, get_pallet, setq_pallet, hpos, forcedCloseLog]

theorem closeType_car_nonempty (s : Scanner) (truck : Truck)
    (h : (buffersGet s.buffers truck.truck_id).car ≠ []) :
    s.closeType truck "Car" =
      ({ s with
          row_logs := s.row_logs ++
            [forcedCloseLog s truck
              { row_id := (truck.rows.length : Int) + 1
                items := (buffersGet s.buffers truck.truck_id).car
                strap_needed := 1 }]
          buffers := buffersSet s.buffers truck.truck_id
            { pallet := (buffersGet s.buffers truck.truck_id).pallet, car := [] } },
        truck.add_row
          { row_id := (truck.rows.length : Int) + 1
            items := (buffersGet s.buffers truck.truck_id).car
            strap_needed := 1 }) := by
  have hpos : 0 < (buffersGet s.buffers truck.truck_id).car.length :=
    List.length_pos.mpr h
  simp [Scanner.closeType, get_car, setq_car, hpos, forcedCloseLog]

theorem row_invalid_of_lengths (r : Row) (h2 : r.items.length ≠ 2)
    (h3 : r.items.length ≠ 3) : r.is_valid = false := by
  unfold Row.is_valid
  simp [h2, h3]

theorem add_row_truck_id (t : Truck) (row : Row) :
    (t.add_row row).truck_id = t.truck_id := rfl

theorem add_row_door (t : Truck) (row : Row) : (t.add_row row).door = t.door := rfl

theorem add_row_rows (t : Truck) (row : Row) :
    (t.add_row row).rows = t.rows ++ [row] := rfl

theorem row_invalid_of_two_cars (r : Row) (h2 : r.items.length = 2)
    (hall : ∀ i ∈ r.items, i.cls = ItemClass.car) : r.is_valid = false := by
  have hne : r.items ≠ [] := by
    intro h
    rw [h] at h2
    simp at h2
  obtain ⟨i0, hi0⟩ := List.exists_mem_of_ne_nil r.items hne
  have hcar : i0.cls = ItemClass.car := hall i0 hi0
  have hnp : ¬ ∀ i ∈ r.items, i.cls = ItemClass.pallet := by
    intro hp
    have := hp i0 hi0
    rw [hcar] at this
    exact absurd this (by simp)
  unfold Row.is_valid
  simp [h2, hnp]

/-- Claim C6.  close_truck in forced mode appends to the truck exactly one new
Row per nonempty type buffer (Pallet first, then Car), each containing all of
that buffer's remaining items in FIFO order with row_id one past the current
row count; writes one forced-close-flagged row log entry per such row; clears
the truck's type buffers; and leaves the item log and every other truck's
buffers untouched.  In the claim's scenario of 1 buffered pallet item and 2
buffered car items, both emitted rows are invalid by the row validity rule. -/
theorem C6_close_truck_forced (s : Scanner) (truck : Truck) (b : TypeBuffers)
    (hb : buffersGet s.buffers truck.truck_id = b) :
    let prows : List Row :=
      if b.pallet = [] then []
      else [{ row_id := (truck.rows.length : Int) + 1, items := b.pallet,
              strap_needed := 1 }]
    let crows : List Row :=
      if b.car = [] then []
      else [{ row_id := ((truck.rows.length + prows.length : Nat) : Int) + 1,
              items := b.car, strap_needed := 1 }]
    ((s.close_truck truck true).2
        = { truck with rows := truck.rows ++ prows ++ crows }) ∧
    ((s.close_truck truck true).1.row_logs
        = s.row_logs ++ (prows ++ crows).map (forcedCloseLog s truck)) ∧
    ((s.close_truck truck true).1.item_logs = s.item_logs) ∧
    (buffersGet (s.close_truck truck true).1.buffers truck.truck_id
        = { pallet := [], car := [] }) ∧
    (∀ k, k ≠ truck.truck_id →
      (s.close_truck truck true).1.buffers.lookup k = s.buffers.lookup k) ∧
    (b.pallet.length = 1 → ∀ r ∈ prows, r.is_valid = false) ∧
    (b.car.length = 2 → (∀ i ∈ b.car, i.cls = ItemClass.car) →
      ∀ r ∈ crows, r.is_valid = false) := by
  dsimp only
  have hsome0 := ensure_lookup_isSome s truck
  have hb0 : buffersGet (s.ensure_buffers truck).buffers truck.truck_id = b := by
    rw [buffersGet_ensure_self, hb]
  have hcl : s.close_truck truck true
      = ((s.ensure_buffers truck).closeType truck "Pallet").1.closeType
        ((s.ensure_buffers truck).closeType truck "Pallet").2 "Car" := rfl
  by_cases hp : b.pallet = []
  · have h1 := closeType_pallet_empty (s.ensure_buffers truck) truck
      (by rw [hb0, hp])
    have hstep : s.close_truck truck true
        = (s.ensure_buffers truck).closeType truck "Car" := by
      rw [hcl, h1]
    by_cases hc : b.car = []
    · have h2 := closeType_car_empty (s.ensure_buffers truck) truck
        (by rw [hb0, hc])
      have hfin : s.close_truck truck true = (s.ensure_buffers truck, truck) :=
        hstep.trans h2
      refine ⟨?_, ?_, ?_, ?_, ?_, ?_, ?_⟩
      · rw [hfin]
        simp [hp, hc]
      · rw [hfin]
        simp [hp, hc, ensure_row_logs]
      · rw [hfin]
        exact ensure_item_logs s truck
      · rw [hfin]
        show buffersGet (s.ensure_buffers truck).buffers truck.truck_id = _
        rw [hb0, show b = { pallet := b.pallet, car := b.car } from rfl, hp, hc]
      · intro k hk
        rw [hfin]
        exact lookup_ensure_ne s truck k hk
      · intro hlen
        rw [hp] at hlen
        simp at hlen
      · intro hlen _
        rw [hc] at hlen
        simp at hlen
    · have h2 := closeType_car_nonempty (s.ensure_buffers truck) truck
        (by rw [hb0]; exact hc)
      rw [hb0] at h2
      have hfin := hstep.trans h2
      refine ⟨?_, ?_, ?_, ?_, ?_, ?_, ?_⟩
      · rw [hfin]
        dsimp only
        simp [hp, hc, Truck.add_row]
      · rw [hfin]
        dsimp only
        rw [ensure_row_logs,
          forcedCloseLog_eq (s.ensure_buffers truck) s truck truck _
            (ensure_name s truck) rfl rfl]
        simp [hp, hc]
      · rw [hfin]
        dsimp only
        exact ensure_item_logs s truck
      · rw [hfin]
        dsimp only
        rw [buffersGet_set_self _ _ _ hsome0, hp]
      · intro k hk
        rw [hfin]
        dsimp only
        rw [lookup_buffersSet_ne _ _ _ _ hk, lookup_ensure_ne s truck k hk]
      · intro hlen
        rw [hp] at hlen
        simp at hlen
      · intro hlen hall
        simp only [if_neg hc]
        intro r hr
        rcases List.mem_singleton.mp hr with rfl
        exact row_invalid_of_two_cars _ hlen hall
  · have h1 := closeType_pallet_nonempty (s.ensure_buffers truck) truck
      (by rw [hb0]; exact hp)
    rw [hb0] at h1
    have htid1 : (((s.ensure_buffers truck).closeType truck "Pallet").2).truck_id
        = truck.truck_id := by
      rw [h1]
      rfl
    have hdoor1 : (((s.ensure_buffers truck).closeType truck "Pallet").2).door
        = truck.door := by
      rw [h1]
      rfl
    have hname1 : (((s.ensure_buffers truck).closeType truck "Pallet").1).name
        = s.name := by
      rw [h1]
      exact ensure_name s truck
    have hrows1 : (((s.ensure_buffers truck).closeType truck "Pallet").2).rows
        = truck.rows ++
          [{ row_id := (truck.rows.length : Int) + 1,
             items := b.pallet,
             strap_needed := 1 }] := by
      rw [h1]
      rfl
    have hlogs1 : (((s.ensure_buffers truck).closeType truck "Pallet").1).row_logs
        = s.row_logs ++
          [forcedCloseLog s truck
            { row_id := (truck.rows.length : Int) + 1,
              items := b.pallet,
              strap_needed := 1 }] := by
      rw [h1]
      show (s.ensure_buffers truck).row_logs ++ _ = _
      rw [ensure_row_logs,
        forcedCloseLog_eq (s.ensure_buffers truck) s truck truck _
          (ensure_name s truck) rfl rfl]
    have hitem1 : (((s.ensure_buffers truck).closeType truck "Pallet").1).item_logs
        = s.item_logs := by
      rw [h1]
      exact ensure_item_logs s truck
    have hget1 : buffersGet
        ((((s.ensure_buffers truck).closeType truck "Pallet").1)).buffers
        truck.truck_id = { pallet := [], car := b.car } := by
      rw [h1]
      exact buffersGet_set_self _ _ _ hsome0
    have hsome1 : (((((s.ensure_buffers truck).closeType truck
        "Pallet").1)).buffers.lookup truck.truck_id).isSome := by
      rw [h1]
      show ((buffersSet (s.ensure_buffers truck).buffers truck.truck_id
        _).lookup truck.truck_id).isSome
      rw [lookup_buffersSet_self _ _ _ hsome0]
      rfl
    have hlk1 : ∀ k, k ≠ truck.truck_id →
        ((((s.ensure_buffers truck).closeType truck "Pallet").1)).buffers.lookup k
          = s.buffers.lookup k := by
      intro k hk
      rw [h1]
      show (buffersSet (s.ensure_buffers truck).buffers truck.truck_id
        _).lookup k = _
      rw [lookup_buffersSet_ne _ _ _ _ hk, lookup_ensure_ne s truck k hk]
    have hget1' : buffersGet
        ((((s.ensure_buffers truck).closeType truck "Pallet").1)).buffers
        ((((s.ensure_buffers truck).closeType truck "Pallet").2)).truck_id
        = { pallet := [], car := b.car } := by
      rw [htid1]
      exact hget1
    by_cases hc : b.car = []
    · have h2 := closeType_car_empty
        (((s.ensure_buffers truck).closeType truck "Pallet").1)
        (((s.ensure_buffers truck).closeType truck "Pallet").2)
        (by rw [hget1']; exact hc)
      have hfin : s.close_truck truck true
          = (((s.ensure_buffers truck).closeType truck "Pallet").1,
             ((s.ensure_buffers truck).closeType truck "Pallet").2) :=
        hcl.trans h2
      refine ⟨?_, ?_, ?_, ?_, ?_, ?_, ?_⟩
      · rw [hfin]
        show ((s.ensure_buffers truck).closeType truck "Pallet").2 = _
        rw [h1]
        dsimp only [Truck.add_row]
        simp [hp, hc]
      · rw [hfin]
        show (((s.ensure_buffers truck).closeType truck "Pallet").1).row_logs = _
        rw [hlogs1]
        simp [hp, hc]
      · rw [hfin]
        exact hitem1
      · rw [hfin]
        show buffersGet
          ((((s.ensure_buffers truck).closeType truck "Pallet").1)).buffers
          truck.truck_id = _
        rw [hget1, hc]
      · intro k hk
        rw [hfin]
        exact hlk1 k hk
      · intro hlen
        simp only [if_neg hp]
        intro r hr
        rcases List.mem_singleton.mp hr with rfl
        exact row_invalid_of_lengths _ (by simp [hlen]) (by simp [hlen])
      · intro hlen _
        rw [hc] at hlen
        simp at hlen
    · have h2 := closeType_car_nonempty
        (((s.ensure_buffers truck).closeType truck "Pallet").1)
        (((s.ensure_buffers truck).closeType truck "Pallet").2)
        (by rw [hget1']; exact hc)
      rw [hget1'] at h2
      dsimp only at h2
      have hfin := hcl.trans h2
      refine ⟨?_, ?_, ?_, ?_, ?_, ?_, ?_⟩
      · rw [hfin]
        dsimp only
        simp only [Truck.add_row]
        rw [hrows1, htid1, hdoor1]
        have hsrl : (((s.ensure_buffers truck).closeType truck
            "Pallet").2).strap_reach_limit = truck.strap_reach_limit := by
          rw [h1]
          rfl
        rw [hsrl]
        simp [hp, hc]
      · rw [hfin]
        dsimp only
        rw [hlogs1]
        have hcast : ((((s.ensure_buffers truck).closeType truck
            "Pallet").2).rows.length : Int)
            = ((truck.rows.length + 1 : Nat) : Int) := by
          rw [hrows1]
          simp
        rw [forcedCloseLog_eq
          (((s.ensure_buffers truck).closeType truck "Pallet").1) s
          (((s.ensure_buffers truck).closeType truck "Pallet").2) truck _
          hname1 htid1 hdoor1, hcast]
        simp [hp, hc, List.append_assoc]
      · rw [hfin]
        dsimp only
        exact hitem1
      · rw [hfin]
        dsimp only
        rw [htid1, buffersGet_set_self _ _ _ hsome1]
      · intro k hk
        rw [hfin]
        dsimp only
        rw [htid1, lookup_buffersSet_ne _ _ _ _ hk]
        exact hlk1 k hk
      · intro hlen
        simp only [if_neg hp]
        intro r hr
        rcases List.mem_singleton.mp hr with rfl
        exact row_invalid_of_lengths _ (by simp [hlen]) (by simp [hlen])
      · intro hlen hall
        simp only [if_neg hc]
        intro r hr
        rcases List.mem_singleton.mp hr with rfl
        exact row_invalid_of_two_cars _ hlen hall

/-- Witness for C6 at the claim's scenario: 1 buffered pallet item and 2
buffered car items yield exactly the two forced rows. -/
theorem C6_close_truck_forced_witness :
    (scannerC.close_truck truckA true).2.rows =
      [{ row_id := 1, items := [palletItemC], strap_needed := 1 },
       { row_id := 2, items := [carItemA, carItemB], strap_needed := 1 }] := by
  have h := (C6_close_truck_forced scannerC truckA
    { pallet := [palletItemC], car := [carItemA, carItemB] } rfl).1
  rw [h]
  with_unfolding_all decide

/-! ## The buffer invariant (claim C4) -/

/-- Every per-truck buffer holds at most threshold - 1 pending items of each
type: at most 1 pallet item and at most 2 car items. -/
def BufferInv (bs : Buffers) : Prop :=
  ∀ p ∈ bs, p.2.pallet.length ≤ 1 ∧ p.2.car.length ≤ 2

theorem bufferInv_of_lookup (bs : Buffers) (k : String) (v : TypeBuffers)
    (h : BufferInv bs) (hl : bs.lookup k = some v) :
    v.pallet.length ≤ 1 ∧ v.car.length ≤ 2 :=
  h (k, v) (mem_of_lookup_eq_some bs k v hl)

theorem bufferInv_set (bs : Buffers) (k : String) (v : TypeBuffers)
    (h : BufferInv bs) (hv : v.pallet.length ≤ 1 ∧ v.car.length ≤ 2) :
    BufferInv (buffersSet bs k v) := by
  intro p hp
  rcases mem_buffersSet bs k v p hp with rfl | ⟨_, hmem⟩
  · exact hv
  · exact h p hmem

theorem bufferInv_set_set (bs : Buffers) (k : String) (v1 v2 : TypeBuffers)
    (h : BufferInv bs) (hv : v2.pallet.length ≤ 1 ∧ v2.car.length ≤ 2) :
    BufferInv (buffersSet (buffersSet bs k v1) k v2) := by
  intro p hp
  rcases mem_buffersSet _ k v2 p hp with rfl | ⟨hne, hmem⟩
  · exact hv
  · rcases mem_buffersSet bs k v1 p hmem with heq | ⟨_, hmem2⟩
    · rw [heq] at hne
      exact absurd rfl hne
    · exact h p hmem2

theorem bufferInv_ensure (s : Scanner) (truck : Truck) (h : BufferInv s.buffers) :
    BufferInv (s.ensure_buffers truck).buffers := by
  unfold Scanner.ensure_buffers
  by_cases hs : (s.buffers.lookup truck.truck_id).isSome
  · simpa [hs] using h
  · simp only [hs, Bool.false_eq_true, if_false, ite_false]
    intro p hp
    rcases List.mem_append.mp hp with h1 | h1
    · exact h p h1
    · rcases List.mem_singleton.mp h1 with rfl
      simp

theorem get_empty (ty : String) : (TypeBuffers.mk [] []).get ty = [] := by
  unfold TypeBuffers.get
  split <;> rfl

/-- Invariant preservation through the push-and-flush step of process_batch:
an item appended to a buffer that held at most threshold - 1 items leaves at
most threshold items, and the flush dequeues exactly threshold of them as
soon as the threshold is reached. -/
theorem pushItem_bufferInv (s : Scanner) (truck : Truck) (item : Item)
    (h : BufferInv s.buffers) : BufferInv (s.pushItem truck item).1.buffers := by
  simp only [Scanner.pushItem]
  by_cases hty : item.type = "Pallet" ∨ item.type = "Car"
  · rw [if_pos hty]
    cases hl : s.buffers.lookup truck.truck_id with
    | none =>
      have hid : ∀ v, buffersSet s.buffers truck.truck_id v = s.buffers :=
        fun v => buffersSet_of_lookup_none _ _ _ hl
      have hget : buffersGet s.buffers truck.truck_id
          = { pallet := [], car := [] } := by
        unfold buffersGet
        rw [hl]
        rfl
      simp only [Scanner.flush_if_full, hid, hget, get_empty, List.length_nil]
      have hcond : ¬ ((if item.type = "Pallet" then 2 else 3) ≤ 0) := by
        split <;> omega
      rw [if_neg hcond]
      exact h
    | some b0 =>
      have hsome : (s.buffers.lookup truck.truck_id).isSome := by
        rw [hl]
        rfl
      have hget : buffersGet s.buffers truck.truck_id = b0 := by
        unfold buffersGet
        rw [hl]
        rfl
      have hb0 := bufferInv_of_lookup s.buffers truck.truck_id b0 h hl
      rcases hty with hty | hty
      · rw [hty]
        simp only [Scanner.flush_if_full, hget, setq_pallet, get_pallet,
          buffersGet_set_self _ _ _ hsome, if_pos rfl, ite_true]
        by_cases hflush : (2 : Nat) ≤ (b0.pallet ++ [item]).length
        · rw [if_pos hflush]
          apply bufferInv_set_set _ _ _ _ h
          constructor

          · simp only [setq_pallet]
            simp only [List.length_drop, List.length_append, List.length_cons,
              List.length_nil]
            omega
          · simp only [setq_pallet]
            exact hb0.2
        · rw [if_neg hflush]
          apply bufferInv_set _ _ _ h
          constructor
          · simp only [List.length_append, List.length_cons, List.length_nil]
            simp only [List.length_append, List.length_cons,
              List.length_nil] at hflush
            omega
          · exact hb0.2
      · rw [hty]
        have hne : ("Car" : String) ≠ "Pallet" := by decide
        simp only [Scanner.flush_if_full, hget, setq_car, get_car,
          buffersGet_set_self _ _ _ hsome, if_neg hne, ite_true, ite_false]
        by_cases hflush : (3 : Nat) ≤ (b0.car ++ [item]).length
        · rw [if_pos hflush]
          apply bufferInv_set_set _ _ _ _ h
          constructor
          · simp only [setq_car]
            exact hb0.1
          · simp only [setq_car]
            simp only [List.length_drop, List.length_append, List.length_cons,
              List.length_nil]
            omega
        · rw [if_neg hflush]
          apply bufferInv_set _ _ _ h
          constructor
          · exact hb0.1
          · simp only [List.length_append, List.length_cons, List.length_nil]
            simp only [List.length_append, List.length_cons,
              List.length_nil] at hflush
            omega
  · rw [if_neg hty]
    exact h

/-- Invariant preservation through one full item step of process_batch. -/
theorem processOne_bufferInv (s : Scanner) (truck : Truck) (item : Item)
    (g : Rng) (h : BufferInv s.buffers) :
    BufferInv (s.processOne truck item g).1.buffers := by
  simp only [Scanner.processOne]
  by_cases hdoor : ((if (s.scan_item item g).1.success
      then (s.scan_door_in truck ((s.scan_item item g).2 0),
            ((s.scan_item item g).2).drop 1)
      else (false, (s.scan_item item g).2)).1 : Bool)
  · rw [if_pos hdoor]
    exact pushItem_bufferInv s truck item h
  · rw [if_neg hdoor]
    exact h

theorem foldl_processOne_bufferInv (items : List Item)
    (st : Scanner × Truck × Rng) (h : BufferInv st.1.buffers) :
    BufferInv ((items.foldl
      (fun st item => Scanner.processOne st.1 st.2.1 item st.2.2) st)).1.buffers := by
  induction items generalizing st with
  | nil => exact h
  | cons item rest ih =>
    exact ih _ (processOne_bufferInv st.1 st.2.1 item st.2.2 h)

/-- Claim C4.  Invariant: from any scanner state whose buffers satisfy the
bound, the per-item append-and-flush step of process_batch keeps every
per-truck type buffer at or below threshold - 1 items (at most 1 pallet item,
at most 2 car items), because a buffer that reaches its threshold is
immediately flushed by dequeuing exactly threshold items; consequently a whole
process_batch call preserves the bound as well. -/
theorem C4_buffer_invariant (s : Scanner) (truck : Truck) (item : Item)
    (items : List Item) (g : Rng) (h : BufferInv s.buffers) :
    BufferInv (s.processOne truck item g).1.buffers ∧
    BufferInv (s.process_batch items truck g).1.buffers := by
  refine ⟨processOne_bufferInv s truck item g h, ?_⟩
  unfold Scanner.process_batch
  exact foldl_processOne_bufferInv items _ (bufferInv_ensure s truck h)

/-- Witness for C4 at a concrete state with nonempty buffers. -/
theorem C4_buffer_invariant_witness :
    BufferInv scannerC.buffers ∧
    BufferInv (scannerC.processOne truckA palletItemA zeroRng).1.buffers :=
  ⟨by unfold BufferInv; decide,
    (C4_buffer_invariant scannerC truckA palletItemA [] zeroRng
      (by unfold BufferInv; decide)).1⟩

/-! ## The scan retry loop (claim C9)

The k-th trial of scan_item (1-indexed) consumes the draws g (2*(k-1)) (the
Gaussian duration sample) and g (2*(k-1)+1) (the uniform success sample). -/

/-- Outcome of the k-th barcode scan trial under the draw stream g. -/
def trialSucc (s : Scanner) (item : Item) (g : Rng) (k : Nat) : Bool :=
  s.scanOnce item (g (2 * (k - 1) + 1))

/-- Duration of the k-th scan trial: the Gaussian sample around the attempt's
mean (mean_time_s for the first attempt, 1.4s for retries), clamped below at
0.4 seconds. -/
def trialTimeAbs (s : Scanner) (g : Rng) (k : Nat) : ℚ :=
  max (4 / 10)
    ((if k = 1 then s.mean_time_s else 14 / 10) + (1 / 2) * g (2 * (k - 1)))

/-- Total duration of trials a+1 .. a+k. -/
def sumTimes (s : Scanner) (g : Rng) : Nat → Nat → ℚ
  | _, 0 => 0
  | a, k + 1 => trialTimeAbs s g (a + 1) + sumTimes s g (a + 1) k

theorem Rng.drop_apply (g : Rng) (k n : Nat) : (g.drop k) n = g (n + k) := rfl

theorem Rng.drop_drop (g : Rng) (i j : Nat) :
    (g.drop i).drop j = g.drop (j + i) := by
  funext n
  show g ((n + j) + i) = g (n + (j + i))
  congr 1
  omega

theorem sumTimes_lower (s : Scanner) (g : Rng) :
    ∀ (k a : Nat), (4 / 10 : ℚ) * (k : ℚ) ≤ sumTimes s g a k := by
  intro k
  induction k with
  | zero =>
    intro a
    simp [sumTimes]
  | succ k ih =>
    intro a
    rw [show sumTimes s g a (k + 1)
      = trialTimeAbs s g (a + 1) + sumTimes s g (a + 1) k from rfl]
    have h1 : (4 / 10 : ℚ) ≤ trialTimeAbs s g (a + 1) := le_max_left _ _
    have h2 := ih (a + 1)
    push_cast
    linarith

/-- Full characterization of the retry while-loop of scan_item, relative to
the original draw stream g0: starting at attempt count a with the stream
advanced past 2*a draws, the loop performs some k ≤ fuel further trials,
accumulates exactly their durations, succeeds exactly at the first successful
trial, and exhausts the fuel when every trial fails. -/
theorem scanItemLoop_spec (s : Scanner) (item : Item) (g0 : Rng) :
    ∀ (fuel a : Nat) (total : ℚ),
      ∃ k, k ≤ fuel ∧
        (scanItemLoop s item fuel a total (g0.drop (2 * a))).1 = a + k ∧
        (scanItemLoop s item fuel a total (g0.drop (2 * a))).2.1
          = total + sumTimes s g0 a k ∧
        ((scanItemLoop s item fuel a total (g0.drop (2 * a))).2.2.1 = true →
          1 ≤ k ∧ trialSucc s item g0 (a + k) = true ∧
          ∀ j, a + 1 ≤ j → j < a + k → trialSucc s item g0 j = false) ∧
        ((scanItemLoop s item fuel a total (g0.drop (2 * a))).2.2.1 = false →
          k = fuel ∧
          ∀ j, a + 1 ≤ j → j ≤ a + fuel → trialSucc s item g0 j = false) := by
  intro fuel
  induction fuel with
  | zero =>
    intro a total
    refine ⟨0, le_refl 0, rfl, ?_, ?_, ?_⟩
    · show total = total + sumTimes s g0 a 0
      rw [show sumTimes s g0 a 0 = 0 from rfl, add_zero]
    · intro hsucc
      exact absurd hsucc (by simp [scanItemLoop])
    · intro _
      exact ⟨rfl, fun j hj1 hj2 => by omega⟩
  | succ fuel ih =>
    intro a total
    have hstep : scanItemLoop s item (fuel + 1) a total (g0.drop (2 * a))
        = if s.scanOnce item ((g0.drop (2 * a)) 1)
          then (a + 1,
                total + max (4 / 10)
                  ((if a + 1 = 1 then s.mean_time_s else 14 / 10)
                    + (1 / 2) * (g0.drop (2 * a)) 0),
                true, (g0.drop (2 * a)).drop 2)
          else scanItemLoop s item fuel (a + 1)
                (total + max (4 / 10)
                  ((if a + 1 = 1 then s.mean_time_s else 14 / 10)
                    + (1 / 2) * (g0.drop (2 * a)) 0))
                ((g0.drop (2 * a)).drop 2) := rfl
    have htime : max (4 / 10 : ℚ)
        ((if a + 1 = 1 then s.mean_time_s else 14 / 10)
          + (1 / 2) * (g0.drop (2 * a)) 0)
        = trialTimeAbs s g0 (a + 1) := by
      unfold trialTimeAbs
      rw [Rng.drop_apply]
      have harg : (0 + 2 * a) = 2 * (a + 1 - 1) := by omega
      rw [harg]
    have hsucc : s.scanOnce item ((g0.drop (2 * a)) 1)
        = trialSucc s item g0 (a + 1) := by
      unfold trialSucc
      rw [Rng.drop_apply]
      have harg : (1 + 2 * a) = 2 * (a + 1 - 1) + 1 := by omega
      rw [harg]
    have hgd : (g0.drop (2 * a)).drop 2 = g0.drop (2 * (a + 1)) := by
      have harg : 2 + 2 * a = 2 * (a + 1) := by omega
      rw [Rng.drop_drop, harg]
    rw [hstep, htime, hsucc, hgd]
    by_cases hs1 : trialSucc s item g0 (a + 1) = true
    · rw [if_pos hs1]
      refine ⟨1, by omega, rfl, ?_, ?_, ?_⟩
      · show total + trialTimeAbs s g0 (a + 1) = total + sumTimes s g0 a 1
        rw [show sumTimes s g0 a 1
          = trialTimeAbs s g0 (a + 1) + sumTimes s g0 (a + 1) 0 from rfl,
          show sumTimes s g0 (a + 1) 0 = 0 from rfl, add_zero]
      · intro _
        exact ⟨by omega, hs1, fun j hj1 hj2 => by omega⟩
      · intro hfalse
        exact absurd hfalse (by simp)
    · rw [if_neg hs1]
      have hs1f : trialSucc s item g0 (a + 1) = false :=
        Bool.not_eq_true _ ▸ eq_false_of_ne_true hs1
      obtain ⟨k, hk, h1, h2, h3, h4⟩ := ih (a + 1)
        (total + trialTimeAbs s g0 (a + 1))
      refine ⟨k + 1, by omega, ?_, ?_, ?_, ?_⟩
      · rw [h1]
        omega
      · rw [h2]
        rw [show sumTimes s g0 a (k + 1)
          = trialTimeAbs s g0 (a + 1) + sumTimes s g0 (a + 1) k from rfl]
        ring
      · intro hsucc2
        obtain ⟨hk1, hks, hprev⟩ := h3 hsucc2
        refine ⟨by omega, ?_, ?_⟩
        · rw [show a + (k + 1) = (a + 1) + k from by omega]
          exact hks
        · intro j hj1 hj2
          by_cases hj : j = a + 1
          · rw [hj]
            exact hs1f
          · exact hprev j (by omega) (by omega)
      · intro hfail
        obtain ⟨hkf, hall⟩ := h4 hfail
        refine ⟨by omega, ?_⟩
        intro j hj1 hj2
        by_cases hj : j = a + 1
        · rw [hj]
          exact hs1f
        · exact hall j (by omega) (by omega)

/-- Claim C9.  With max_attempts at least 1, scan_item performs between 1 and
max_attempts trials, stops at the first successful trial (a failed run uses
exactly max_attempts trials, all failed), and returns the success flag, the
exact attempt count, and the total elapsed time rounded to two decimals,
where every performed attempt contributes at least 0.4 seconds. -/
theorem C9_scan_item (s : Scanner) (item : Item) (g : Rng)
    (h : 1 ≤ s.max_attempts) :
    (1 ≤ ((s.scan_item item g).1).attempts ∧
     ((s.scan_item item g).1).attempts ≤ s.max_attempts) ∧
    ((s.scan_item item g).1).time_s
      = round2 (sumTimes s g 0 ((s.scan_item item g).1).attempts) ∧
    (4 / 10 : ℚ) * ((((s.scan_item item g).1).attempts : Nat) : ℚ)
      ≤ sumTimes s g 0 ((s.scan_item item g).1).attempts ∧
    (((s.scan_item item g).1).success = true →
      trialSucc s item g (((s.scan_item item g).1).attempts) = true ∧
      ∀ j, 1 ≤ j → j < ((s.scan_item item g).1).attempts →
        trialSucc s item g j = false) ∧
    (((s.scan_item item g).1).success = false →
      ((s.scan_item item g).1).attempts = s.max_attempts ∧
      ∀ j, 1 ≤ j → j ≤ s.max_attempts → trialSucc s item g j = false) := by
  obtain ⟨k, hk, h1, h2, h3, h4⟩ := scanItemLoop_spec s item g s.max_attempts 0 0
  have hatt : ((s.scan_item item g).1).attempts = k := by
    show (scanItemLoop s item s.max_attempts 0 0 (Rng.drop g (2 * 0))).1 = k
    rw [h1]
    omega
  have htime : ((s.scan_item item g).1).time_s = round2 (sumTimes s g 0 k) := by
    show round2
      ((scanItemLoop s item s.max_attempts 0 0 (Rng.drop g (2 * 0))).2.1) = _
    rw [h2, zero_add]
  have hlow : 1 ≤ k := by
    cases hbool : ((s.scan_item item g).1).success with
    | true => exact (h3 hbool).1
    | false =>
      have := (h4 hbool).1
      omega
  refine ⟨⟨?_, ?_⟩, ?_, ?_, ?_, ?_⟩
  · rw [hatt]
    exact hlow
  · rw [hatt]
    exact hk
  · rw [hatt]
    exact htime
  · rw [hatt]
    exact sumTimes_lower s g k 0
  · intro hbool
    rw [hatt]
    obtain ⟨hk1, hks, hprev⟩ := h3 hbool
    refine ⟨by simpa using hks, ?_⟩
    intro j hj1 hj2
    exact hprev j (by omega) (by omega)
  · intro hbool
    rw [hatt]
    obtain ⟨hkf, hall⟩ := h4 hbool
    refine ⟨hkf, ?_⟩
    intro j hj1 hj2
    exact hall j (by omega) (by omega)

/-- Witness for C9 at the default configuration on the all-zero stream. -/
theorem C9_scan_item_witness :
    1 ≤ scannerA.max_attempts ∧
    1 ≤ ((scannerA.scan_item palletItemA zeroRng).1).attempts ∧
    ((scannerA.scan_item palletItemA zeroRng).1).attempts
      ≤ scannerA.max_attempts :=
  ⟨by decide,
    (C9_scan_item scannerA palletItemA zeroRng (by decide)).1.1,
    (C9_scan_item scannerA palletItemA zeroRng (by decide)).1.2⟩

end Crossdock
